import Mathlib

/-
Verification of the pubmedclient SDK (src/pubmedmcp/sdk.py): the EInfo and
ESearch endpoint functions, their request serialization and response
validation. The request and response pydantic models live in
pubmedmcp/models.py, which is not part of the sources here; those data
definitions are modelled from the specification, as marked. The endpoint
logic itself is translated directly from sdk.py.
-/

set_option autoImplicit false

namespace PubmedSdk

/-- JSON values, the shape of response bodies. The HTTP response body is
represented by its parsed JSON value; response-model validation
(pydantic model_validate_json in the source) operates on this value. -/
inductive Json where
  | null
  | bool (b : Bool)
  | num (n : Int)
  | str (s : String)
  | arr (elems : List Json)
  | obj (fields : List (String × Json))

/-- Modelled from the spec: the models module (absent from the sources)
defines an enumerated return mode restricting acceptable response
encodings, such as JSON, XML and plain text. -/
inductive RetMode where
  | json
  | xml
  | text
deriving DecidableEq, Repr

/-- Modelled from the spec: the wire value of each return mode, the value
serialized into query parameters. -/
def RetMode.value : RetMode → String
  | .json => "json"
  | .xml => "xml"
  | .text => "text"

/-- Modelled from the spec: the textual rendering of a return-mode member
when interpolated into an error message (pydantic enum member rendering). -/
def RetMode.pyRepr : RetMode → String
  | .json => "RetMode.JSON"
  | .xml => "RetMode.XML"
  | .text => "RetMode.TEXT"

/-- Modelled from the spec: rendering of an optional return-mode field in
an error message; an unset field renders as None. -/
def optRetModeRepr : Option RetMode → String
  | none => "None"
  | some m => m.pyRepr

/-- Modelled from the spec: EInfoRequest has an optional database name, an
optional API version and an optional return mode that defaults to JSON. -/
structure EInfoRequest where
  db : Option String := none
  version : Option String := none
  retmode : Option RetMode := some RetMode.json
deriving DecidableEq, Repr

/-- Modelled from the spec: ESearchRequest has an optional term string and
optional filters: database name, date range (mindate, maxdate, datetype),
usehistory flag, pagination (retstart, retmax) and a return mode that
defaults to JSON. Field order follows the external-interface listing. -/
structure ESearchRequest where
  db : Option String := none
  term : Option String := none
  retmode : Option RetMode := some RetMode.json
  retstart : Option Nat := none
  retmax : Option Nat := none
  datetype : Option String := none
  mindate : Option String := none
  maxdate : Option String := none
  usehistory : Option String := none
deriving DecidableEq, Repr

/-- One query-parameter entry for an optional field: an unset field
contributes nothing, a set field contributes its key and value. This is
the per-field behaviour of model_dump with exclude_none set. -/
def queryEntry (k : String) : Option String → List (String × String)
  | none => []
  | some v => [(k, v)]

/-- Embeds params.model_dump(exclude_none=True) at sdk.py line 68 for the
spec-modelled EInfoRequest field set: every field holding a value becomes
a query parameter, fields holding None are excluded. -/
def EInfoRequest.model_dump (p : EInfoRequest) : List (String × String) :=
  queryEntry "db" p.db ++
  queryEntry "version" p.version ++
  queryEntry "retmode" (p.retmode.map RetMode.value)

/-- The rendered value held by a named field of an EInfoRequest, none for
an unset field or an unknown key. Used to state the serialization
characterization. -/
def EInfoRequest.fieldValue (p : EInfoRequest) (k : String) : Option String :=
  if k = "db" then p.db
  else if k = "version" then p.version
  else if k = "retmode" then p.retmode.map RetMode.value
  else none

/-- Embeds params.model_dump(exclude_none=True) at sdk.py line 133 for the
spec-modelled ESearchRequest field set. -/
def ESearchRequest.model_dump (p : ESearchRequest) : List (String × String) :=
  queryEntry "db" p.db ++
  queryEntry "term" p.term ++
  queryEntry "retmode" (p.retmode.map RetMode.value) ++
  queryEntry "retstart" (p.retstart.map toString) ++
  queryEntry "retmax" (p.retmax.map toString) ++
  queryEntry "datetype" p.datetype ++
  queryEntry "mindate" p.mindate ++
  queryEntry "maxdate" p.maxdate ++
  queryEntry "usehistory" p.usehistory

/-- The rendered value held by a named field of an ESearchRequest, none
for an unset field or an unknown key. -/
def ESearchRequest.fieldValue (p : ESearchRequest) (k : String) : Option String :=
  if k = "db" then p.db
  else if k = "term" then p.term
  else if k = "retmode" then p.retmode.map RetMode.value
  else if k = "retstart" then p.retstart.map toString
  else if k = "retmax" then p.retmax.map toString
  else if k = "datetype" then p.datetype
  else if k = "mindate" then p.mindate
  else if k = "maxdate" then p.maxdate
  else if k = "usehistory" then p.usehistory
  else none

/-- Looks up a key in a JSON object; none when the value is not an object
or the key is absent. -/
def Json.getField (j : Json) (k : String) : Option Json :=
  match j with
  | .obj fields => fields.lookup k
  | _ => none

/-- Interprets a JSON value as a list of strings, failing on any other
shape (pydantic list-of-str validation). -/
def Json.asStringList : Json → Except String (List String)
  | .arr elems => elems.mapM fun e =>
      match e with
      | .str s => Except.ok s
      | _ => Except.error "expected a string element"
  | _ => Except.error "expected an array"

/-- Modelled from the spec: the einforesult payload of an EInfoResponse,
holding the database list (for a request without a db) or the per-database
information (passed through as parsed JSON). -/
structure EInfoResult where
  dblist : Option (List String) := none
  dbinfo : Option Json := none

/-- Modelled from the spec: EInfoResponse mirrors the remote JSON shape,
with a required einforesult payload. -/
structure EInfoResponse where
  einforesult : EInfoResult

/-- Modelled from the spec: validation of the einforesult payload; a
present dblist must be a list of strings. -/
def EInfoResult.model_validate (j : Json) : Except String EInfoResult :=
  match j with
  | .obj _ =>
    match j.getField "dblist" with
    | none => Except.ok { dblist := none, dbinfo := j.getField "dbinfo" }
    | some d =>
      match d.asStringList with
      | Except.error e => Except.error ("einforesult.dblist: " ++ e)
      | Except.ok l => Except.ok { dblist := some l, dbinfo := j.getField "dbinfo" }
  | _ => Except.error "einforesult: expected an object"

/-- Modelled from the spec: validation of a response body as an
EInfoResponse; a body without the required einforesult key fails with a
validation error rather than producing a partial object. -/
def EInfoResponse.model_validate (j : Json) : Except String EInfoResponse :=
  match j.getField "einforesult" with
  | none => Except.error "einforesult: field required"
  | some r =>
    match EInfoResult.model_validate r with
    | Except.error e => Except.error e
    | Except.ok res => Except.ok { einforesult := res }

/-- Modelled from the spec: the esearchresult payload of an
ESearchResponse: the matching UID list (required), the query translation
applied by the service and any reported errors or warnings. -/
structure ESearchResult where
  idlist : List String
  querytranslation : Option String := none
  errorlist : Option Json := none
  warninglist : Option Json := none

/-- Modelled from the spec: ESearchResponse mirrors the remote JSON shape,
with a required esearchresult payload. -/
structure ESearchResponse where
  esearchresult : ESearchResult

/-- Modelled from the spec: validation of the esearchresult payload; the
idlist key is required and must be a list of strings, the query
translation must be a string when present. -/
def ESearchResult.model_validate (j : Json) : Except String ESearchResult :=
  match j with
  | .obj _ =>
    match j.getField "idlist" with
    | none => Except.error "esearchresult.idlist: field required"
    | some ids =>
      match ids.asStringList with
      | Except.error e => Except.error ("esearchresult.idlist: " ++ e)
      | Except.ok l =>
        match j.getField "querytranslation" with
        | none => Except.ok { idlist := l, errorlist := j.getField "errorlist",
                              warninglist := j.getField "warninglist" }
        | some (Json.str s) =>
            Except.ok { idlist := l, querytranslation := some s,
                        errorlist := j.getField "errorlist",
                        warninglist := j.getField "warninglist" }
        | some _ => Except.error "esearchresult.querytranslation: expected a string"
  | _ => Except.error "esearchresult: expected an object"

/-- Modelled from the spec: validation of a response body as an
ESearchResponse; a body without the required esearchresult key fails with
a validation error rather than producing a partial object. -/
def ESearchResponse.model_validate (j : Json) : Except String ESearchResponse :=
  match j.getField "esearchresult" with
  | none => Except.error "esearchresult: field required"
  | some r =>
    match ESearchResult.model_validate r with
    | Except.error e => Except.error e
    | Except.ok res => Except.ok { esearchresult := res }

/-- An outbound HTTP request: the URL and the query parameters passed to
client.get. -/
structure HttpRequest where
  url : String
  params : List (String × String)

/-- An HTTP response: the status code and the body (represented by its
parsed JSON value). -/
structure HttpResponse where
  status : Nat
  body : Json

/-- The errors an endpoint function can raise: the unsupported-mode
ValueError, the HTTPStatusError from raise_for_status (carrying the
status code and the response body), and the pydantic ValidationError
from response parsing. -/
inductive SdkError where
  | valueError (msg : String)
  | httpStatusError (status : Nat) (body : Json)
  | validationError (msg : String)

/-- Embeds httpx response.raise_for_status: a response whose status is not
a success (2xx) raises an HTTPStatusError carrying the status code and
the response body. -/
def HttpResponse.raise_for_status (r : HttpResponse) : Except SdkError Unit :=
  if 200 ≤ r.status ∧ r.status < 300 then Except.ok ()
  else Except.error (SdkError.httpStatusError r.status r.body)

/-- Embeds BASE_URL at sdk.py line 17. -/
def BASE_URL : String := "https://eutils.ncbi.nlm.nih.gov/entrez/eutils"

/-- The unsupported-mode error message built by the f-string at sdk.py
lines 62 and 127, parameterized by the endpoint name interpolated there
(EInfo or ESearch) and the provided return mode. -/
def modeErrorMsg (endpointName : String) (m : Option RetMode) : String :=
  "We only support " ++ RetMode.json.pyRepr ++ " return mode for " ++
    endpointName ++ " at this time. You provided " ++ optRetModeRepr m ++ "."

/-- Embeds einfo at sdk.py lines 33-73. The caller-supplied HTTP client is
a function from request to response; the returned list is the trace of
requests issued through client.get, so that the absence or number of
network calls is visible in the result. -/
def einfo (client : HttpRequest → HttpResponse) (params : EInfoRequest) :
    Except SdkError EInfoResponse × List HttpRequest :=
  if params.retmode ≠ some RetMode.json then
    (Except.error (SdkError.valueError (modeErrorMsg "EInfo" params.retmode)), [])
  else
    let base_url := BASE_URL ++ "/einfo.fcgi"
    let query_params := params.model_dump
    let req : HttpRequest := { url := base_url, params := query_params }
    let response := client req
    match response.raise_for_status with
    | Except.error e => (Except.error e, [req])
    | Except.ok _ =>
      match EInfoResponse.model_validate response.body with
      | Except.error msg => (Except.error (SdkError.validationError msg), [req])
      | Except.ok res => (Except.ok res, [req])

/-- Embeds esearch at sdk.py lines 76-138, in the same representation as
einfo. -/
def esearch (client : HttpRequest → HttpResponse) (params : ESearchRequest) :
    Except SdkError ESearchResponse × List HttpRequest :=
  if params.retmode ≠ some RetMode.json then
    (Except.error (SdkError.valueError (modeErrorMsg "ESearch" params.retmode)), [])
  else
    let base_url := BASE_URL ++ "/esearch.fcgi"
    let query_params := params.model_dump
    let req : HttpRequest := { url := base_url, params := query_params }
    let response := client req
    match response.raise_for_status with
    | Except.error e => (Except.error e, [req])
    | Except.ok _ =>
      match ESearchResponse.model_validate response.body with
      | Except.error msg => (Except.error (SdkError.validationError msg), [req])
      | Except.ok res => (Except.ok res, [req])

/-- Follows the shared six-step protocol stated by the spec, parameterized
only by the endpoint name, the path suffix and the response-model
validator: precondition check on the return mode, query construction,
transport call, status check, body parsing, return. Written from the
spec to be compared with einfo and esearch. -/
def runEndpoint {α : Type} (endpointName pathSuffix : String)
    (model_validate : Json → Except String α)
    (client : HttpRequest → HttpResponse)
    (retmode : Option RetMode) (query_params : List (String × String)) :
    Except SdkError α × List HttpRequest :=
  if retmode ≠ some RetMode.json then
    (Except.error (SdkError.valueError (modeErrorMsg endpointName retmode)), [])
  else
    let req : HttpRequest := { url := BASE_URL ++ "/" ++ pathSuffix, params := query_params }
    let response := client req
    match response.raise_for_status with
    | Except.error e => (Except.error e, [req])
    | Except.ok _ =>
      match model_validate response.body with
      | Except.error msg => (Except.error (SdkError.validationError msg), [req])
      | Except.ok res => (Except.ok res, [req])

/-- The four branches of the shared protocol an endpoint call can end in:
the unsupported-mode error, the HTTP status error, the response
validation error, or success. -/
inductive StepBranch where
  | modeError
  | httpError
  | validationFailure
  | success
deriving DecidableEq, Repr

/-- Classifies the outcome of an endpoint call by the protocol branch that
produced it. -/
def branchOf {α : Type} : Except SdkError α × List HttpRequest → StepBranch
  | (Except.error (SdkError.valueError _), _) => StepBranch.modeError
  | (Except.error (SdkError.httpStatusError _ _), _) => StepBranch.httpError
  | (Except.error (SdkError.validationError _), _) => StepBranch.validationFailure
  | (Except.ok _, _) => StepBranch.success

/-- Discriminates success of a validation result. -/
def exceptOk {ε α : Type} : Except ε α → Bool
  | Except.ok _ => true
  | Except.error _ => false

theorem mem_queryEntry {k v k2 : String} {o : Option String} :
    (k, v) ∈ queryEntry k2 o ↔ k = k2 ∧ o = some v := by
  cases o with
  | none => simp [queryEntry]
  | some a => simp [queryEntry, Prod.ext_iff, eq_comm]

theorem mem_model_dump_einfo (p : EInfoRequest) (k v : String) :
    (k, v) ∈ p.model_dump ↔ p.fieldValue k = some v := by
  unfold EInfoRequest.model_dump EInfoRequest.fieldValue
  simp only [List.mem_append, mem_queryEntry]
  split_ifs with h1 h2 h3 <;> simp_all

theorem mem_model_dump_esearch (p : ESearchRequest) (k v : String) :
    (k, v) ∈ p.model_dump ↔ p.fieldValue k = some v := by
  unfold ESearchRequest.model_dump ESearchRequest.fieldValue
  simp only [List.mem_append, mem_queryEntry]
  split_ifs with h1 h2 h3 h4 h5 h6 h7 h8 h9 <;> simp_all

theorem einfo_not_json_eq (client : HttpRequest → HttpResponse) (p : EInfoRequest)
    (h : p.retmode ≠ some RetMode.json) :
    einfo client p =
      (Except.error (SdkError.valueError (modeErrorMsg "EInfo" p.retmode)), []) := by
  unfold einfo
  rw [if_pos h]

theorem esearch_not_json_eq (client : HttpRequest → HttpResponse) (p : ESearchRequest)
    (h : p.retmode ≠ some RetMode.json) :
    esearch client p =
      (Except.error (SdkError.valueError (modeErrorMsg "ESearch" p.retmode)), []) := by
  unfold esearch
  rw [if_pos h]

theorem einfo_snd_json (client : HttpRequest → HttpResponse) (p : EInfoRequest)
    (h : p.retmode = some RetMode.json) :
    (einfo client p).2 =
      [{ url := BASE_URL ++ "/einfo.fcgi", params := p.model_dump }] := by
  unfold einfo
  rw [if_neg (fun hne => hne h)]
  dsimp only
  split
  · rfl
  · split <;> rfl

theorem esearch_snd_json (client : HttpRequest → HttpResponse) (p : ESearchRequest)
    (h : p.retmode = some RetMode.json) :
    (esearch client p).2 =
      [{ url := BASE_URL ++ "/esearch.fcgi", params := p.model_dump }] := by
  unfold esearch
  rw [if_neg (fun hne => hne h)]
  dsimp only
  split
  · rfl
  · split <;> rfl

/-- C1: for every request whose return-mode field is set and not equal to
JSON, einfo and esearch fail immediately with the ValueError naming the
endpoint and the rejected mode, and issue no request through the client. -/
theorem C1_nonjson_mode_rejected_before_transport :
    (∀ (client : HttpRequest → HttpResponse) (p : EInfoRequest) (m : RetMode),
      p.retmode = some m → m ≠ RetMode.json →
      einfo client p =
        (Except.error (SdkError.valueError (modeErrorMsg "EInfo" (some m))), [])) ∧
    (∀ (client : HttpRequest → HttpResponse) (p : ESearchRequest) (m : RetMode),
      p.retmode = some m → m ≠ RetMode.json →
      esearch client p =
        (Except.error (SdkError.valueError (modeErrorMsg "ESearch" (some m))), [])) := by
  constructor
  · intro client p m hm hne
    have h : p.retmode ≠ some RetMode.json := by simp [hm, hne]
    rw [einfo_not_json_eq client p h, hm]
  · intro client p m hm hne
    have h : p.retmode ≠ some RetMode.json := by simp [hm, hne]
    rw [esearch_not_json_eq client p h, hm]

theorem C1_witness :
    einfo (fun _ => { status := 200, body := Json.obj [] })
        { db := none, version := none, retmode := some RetMode.xml } =
      (Except.error (SdkError.valueError (modeErrorMsg "EInfo" (some RetMode.xml))), []) :=
  C1_nonjson_mode_rejected_before_transport.1 _ _ RetMode.xml rfl (by decide)

/-- C2 (counterexample): the default-constructed EInfoRequest, with no
field explicitly provided, still serializes to a non-empty parameter
mapping, because the return-mode field defaults to JSON and
model_dump(exclude_none=True) keeps every non-None field. -/
theorem C2_counterexample_default_retmode_transmitted :
    EInfoRequest.model_dump {} ≠ [] := by decide

/-- C2 (amended): serialization excludes exactly the fields holding no
value: the outgoing parameter mapping contains an entry (k, v) if and
only if the field named k holds the value v. In particular None fields
never appear, but a field holding its non-None default (retmode = JSON)
is transmitted even when not explicitly provided. -/
theorem C2_dump_contains_exactly_set_fields :
    (∀ (p : EInfoRequest) (k v : String),
      (k, v) ∈ p.model_dump ↔ p.fieldValue k = some v) ∧
    (∀ (p : ESearchRequest) (k v : String),
      (k, v) ∈ p.model_dump ↔ p.fieldValue k = some v) :=
  ⟨mem_model_dump_einfo, mem_model_dump_esearch⟩

theorem C2_witness :
    ("retmode", "json") ∈ EInfoRequest.model_dump {} :=
  (C2_dump_contains_exactly_set_fields.1 {} "retmode" "json").mpr (by decide)

/-- C3 (counterexample): EInfoRequest() does not serialize to the empty
parameter set and ESearchRequest(term="asthma") does not serialize to
exactly the single entry term=asthma, because the return-mode field
defaults to JSON and survives model_dump(exclude_none=True). -/
theorem C3_counterexample_dump_not_minimal :
    ¬ (EInfoRequest.model_dump {} = [] ∧
       ESearchRequest.model_dump { term := some "asthma" } = [("term", "asthma")]) := by
  decide

/-- C3 (amended): EInfoRequest() serializes to exactly retmode=json, and
ESearchRequest(term="asthma") serializes to exactly term=asthma together
with retmode=json, and nothing else. -/
theorem C3_default_dumps :
    EInfoRequest.model_dump {} = [("retmode", "json")] ∧
    ESearchRequest.model_dump { term := some "asthma" } =
      [("term", "asthma"), ("retmode", "json")] := by
  decide

/-- C10: a request whose return-mode field holds no value is rejected by
the same unconditional comparison against JSON as any non-JSON mode, with
no request issued; and a call reaches the transport only when the
return-mode field compares equal to JSON. -/
theorem C10_none_mode_rejected_like_nonjson :
    (∀ (client : HttpRequest → HttpResponse) (p : EInfoRequest),
      p.retmode = none →
      einfo client p =
        (Except.error (SdkError.valueError (modeErrorMsg "EInfo" none)), [])) ∧
    (∀ (client : HttpRequest → HttpResponse) (p : ESearchRequest),
      p.retmode = none →
      esearch client p =
        (Except.error (SdkError.valueError (modeErrorMsg "ESearch" none)), [])) ∧
    (∀ (client : HttpRequest → HttpResponse) (p : EInfoRequest),
      (einfo client p).2 ≠ [] → p.retmode = some RetMode.json) ∧
    (∀ (client : HttpRequest → HttpResponse) (p : ESearchRequest),
      (esearch client p).2 ≠ [] → p.retmode = some RetMode.json) := by
  refine ⟨?_, ?_, ?_, ?_⟩
  · intro client p hm
    rw [einfo_not_json_eq client p (by simp [hm]), hm]
  · intro client p hm
    rw [esearch_not_json_eq client p (by simp [hm]), hm]
  · intro client p htrace
    by_contra h
    exact htrace (by rw [einfo_not_json_eq client p h])
  · intro client p htrace
    by_contra h
    exact htrace (by rw [esearch_not_json_eq client p h])

theorem C10_witness :
    einfo (fun _ => { status := 200, body := Json.obj [] })
        { db := none, version := none, retmode := none } =
      (Except.error (SdkError.valueError (modeErrorMsg "EInfo" none)), []) :=
  C10_none_mode_rejected_like_nonjson.1 _ _ rfl

/-- C4: for every HTTP response with a 4xx or 5xx status, einfo and
esearch fail with the HTTPStatusError carrying that status code and the
response body, whatever the body holds, and return no value. -/
theorem C4_failure_status_raises_with_status_and_body :
    (∀ (resp : HttpResponse) (p : EInfoRequest),
      p.retmode = some RetMode.json → 400 ≤ resp.status → resp.status ≤ 599 →
      (einfo (fun _ => resp) p).1 =
        Except.error (SdkError.httpStatusError resp.status resp.body)) ∧
    (∀ (resp : HttpResponse) (p : ESearchRequest),
      p.retmode = some RetMode.json → 400 ≤ resp.status → resp.status ≤ 599 →
      (esearch (fun _ => resp) p).1 =
        Except.error (SdkError.httpStatusError resp.status resp.body)) := by
  constructor
  · intro resp p h h4 h5
    have hrs : resp.raise_for_status =
        Except.error (SdkError.httpStatusError resp.status resp.body) := by
      unfold HttpResponse.raise_for_status
      rw [if_neg (by omega)]
    unfold einfo
    rw [if_neg (fun hne => hne h)]
    dsimp only
    rw [hrs]
  · intro resp p h h4 h5
    have hrs : resp.raise_for_status =
        Except.error (SdkError.httpStatusError resp.status resp.body) := by
      unfold HttpResponse.raise_for_status
      rw [if_neg (by omega)]
    unfold esearch
    rw [if_neg (fun hne => hne h)]
    dsimp only
    rw [hrs]

theorem C4_witness :
    (einfo (fun _ => { status := 404, body := Json.str "not found" })
        ({} : EInfoRequest)).1 =
      Except.error (SdkError.httpStatusError 404 (Json.str "not found")) :=
  C4_failure_status_raises_with_status_and_body.1 _ {} rfl (by decide) (by decide)

/-- C5: for every successful HTTP response whose JSON body does not
conform to the response model of the endpoint, einfo and esearch fail
with the ValidationError produced by the model, never returning a
partially populated response. -/
theorem C5_nonconforming_body_fails_validation :
    (∀ (resp : HttpResponse) (p : EInfoRequest) (m : String),
      p.retmode = some RetMode.json → 200 ≤ resp.status → resp.status < 300 →
      EInfoResponse.model_validate resp.body = Except.error m →
      (einfo (fun _ => resp) p).1 = Except.error (SdkError.validationError m)) ∧
    (∀ (resp : HttpResponse) (p : ESearchRequest) (m : String),
      p.retmode = some RetMode.json → 200 ≤ resp.status → resp.status < 300 →
      ESearchResponse.model_validate resp.body = Except.error m →
      (esearch (fun _ => resp) p).1 = Except.error (SdkError.validationError m)) := by
  constructor
  · intro resp p m h hs1 hs2 hv
    have hrs : resp.raise_for_status = Except.ok () := by
      unfold HttpResponse.raise_for_status
      rw [if_pos ⟨hs1, hs2⟩]
    unfold einfo
    rw [if_neg (fun hne => hne h)]
    dsimp only
    rw [hrs, hv]
  · intro resp p m h hs1 hs2 hv
    have hrs : resp.raise_for_status = Except.ok () := by
      unfold HttpResponse.raise_for_status
      rw [if_pos ⟨hs1, hs2⟩]
    unfold esearch
    rw [if_neg (fun hne => hne h)]
    dsimp only
    rw [hrs, hv]

theorem C5_witness :
    (einfo (fun _ => { status := 200, body := Json.obj [] })
        ({} : EInfoRequest)).1 =
      Except.error (SdkError.validationError "einforesult: field required") :=
  C5_nonconforming_body_fails_validation.1 _ {} _ rfl (by decide) (by decide) rfl

/-- C6: every call that reaches the transport issues its GET to exactly
the einfo.fcgi respectively esearch.fcgi path under the fixed base URL,
carrying the constructed query parameters. -/
theorem C6_transport_urls_exact :
    (∀ (client : HttpRequest → HttpResponse) (p : EInfoRequest),
      p.retmode = some RetMode.json →
      (einfo client p).2 =
        [{ url := "https://eutils.ncbi.nlm.nih.gov/entrez/eutils/einfo.fcgi",
           params := p.model_dump }]) ∧
    (∀ (client : HttpRequest → HttpResponse) (p : ESearchRequest),
      p.retmode = some RetMode.json →
      (esearch client p).2 =
        [{ url := "https://eutils.ncbi.nlm.nih.gov/entrez/eutils/esearch.fcgi",
           params := p.model_dump }]) := by
  constructor
  · intro client p h
    rw [einfo_snd_json client p h]
    rfl
  · intro client p h
    rw [esearch_snd_json client p h]
    rfl

theorem C6_witness :
    (einfo (fun _ => { status := 200, body := Json.obj [] })
        ({} : EInfoRequest)).2 =
      [{ url := "https://eutils.ncbi.nlm.nih.gov/entrez/eutils/einfo.fcgi",
         params := [("retmode", "json")] }] := by
  rw [C6_transport_urls_exact.1 (fun _ => { status := 200, body := Json.obj [] }) {} rfl]
  rfl

/-- C7: every call issues at most one request through the client, exactly
one when the return-mode precondition passes, and never returns a success
value without having issued the request. -/
theorem C7_at_most_one_request :
    (∀ (client : HttpRequest → HttpResponse) (p : EInfoRequest),
      (einfo client p).2.length ≤ 1 ∧
      (p.retmode = some RetMode.json → (einfo client p).2.length = 1) ∧
      (∀ r, (einfo client p).1 = Except.ok r → (einfo client p).2.length = 1)) ∧
    (∀ (client : HttpRequest → HttpResponse) (p : ESearchRequest),
      (esearch client p).2.length ≤ 1 ∧
      (p.retmode = some RetMode.json → (esearch client p).2.length = 1) ∧
      (∀ r, (esearch client p).1 = Except.ok r → (esearch client p).2.length = 1)) := by
  constructor
  · intro client p
    by_cases h : p.retmode = some RetMode.json
    · refine ⟨?_, fun _ => ?_, fun r _ => ?_⟩ <;> rw [einfo_snd_json client p h] <;> simp
    · have he := einfo_not_json_eq client p h
      refine ⟨?_, fun hj => absurd hj h, fun r hr => ?_⟩
      · rw [he]
        simp
      · rw [he] at hr
        simp at hr
  · intro client p
    by_cases h : p.retmode = some RetMode.json
    · refine ⟨?_, fun _ => ?_, fun r _ => ?_⟩ <;> rw [esearch_snd_json client p h] <;> simp
    · have he := esearch_not_json_eq client p h
      refine ⟨?_, fun hj => absurd hj h, fun r hr => ?_⟩
      · rw [he]
        simp
      · rw [he] at hr
        simp at hr

theorem C7_witness :
    (einfo (fun _ => { status := 200, body := Json.obj [] })
        ({} : EInfoRequest)).2.length ≤ 1 ∧
    (einfo (fun _ => { status := 200, body := Json.obj [] })
        ({} : EInfoRequest)).2.length = 1 :=
  ⟨(C7_at_most_one_request.1 (fun _ => { status := 200, body := Json.obj [] }) {}).1,
   (C7_at_most_one_request.1 (fun _ => { status := 200, body := Json.obj [] }) {}).2.1 rfl⟩

/-- C8: einfo and esearch are the same six-step protocol, parameterized
only by the endpoint name, the path suffix and the response model: each
equals the spec-side runEndpoint at its own parameters, and against the
same transport response, requests with the same return mode whose bodies
validate alike end in the same protocol branch. -/
theorem C8_shared_protocol :
    (∀ (client : HttpRequest → HttpResponse) (p : EInfoRequest),
      einfo client p =
        runEndpoint "EInfo" "einfo.fcgi" EInfoResponse.model_validate
          client p.retmode p.model_dump) ∧
    (∀ (client : HttpRequest → HttpResponse) (p : ESearchRequest),
      esearch client p =
        runEndpoint "ESearch" "esearch.fcgi" ESearchResponse.model_validate
          client p.retmode p.model_dump) ∧
    (∀ (resp : HttpResponse) (pe : EInfoRequest) (ps : ESearchRequest),
      pe.retmode = ps.retmode →
      exceptOk (EInfoResponse.model_validate resp.body) =
        exceptOk (ESearchResponse.model_validate resp.body) →
      branchOf (einfo (fun _ => resp) pe) = branchOf (esearch (fun _ => resp) ps)) := by
  refine ⟨?_, ?_, ?_⟩
  · intro client p
    by_cases h : p.retmode = some RetMode.json
    · unfold einfo runEndpoint
      rw [if_neg (fun hne => hne h), if_neg (fun hne => hne h)]
      have hurl : BASE_URL ++ "/einfo.fcgi" = BASE_URL ++ "/" ++ "einfo.fcgi" := by decide
      dsimp only
      rw [hurl]
      split
      · rfl
      · split <;> (rename_i heq; rw [heq])
    · unfold einfo runEndpoint
      rw [if_pos h, if_pos h]
  · intro client p
    by_cases h : p.retmode = some RetMode.json
    · unfold esearch runEndpoint
      rw [if_neg (fun hne => hne h), if_neg (fun hne => hne h)]
      have hurl : BASE_URL ++ "/esearch.fcgi" = BASE_URL ++ "/" ++ "esearch.fcgi" := by decide
      dsimp only
      rw [hurl]
      split
      · rfl
      · split <;> (rename_i heq; rw [heq])
    · unfold esearch runEndpoint
      rw [if_pos h, if_pos h]
  · intro resp pe ps hmode hok
    by_cases h : pe.retmode = some RetMode.json
    · have h2 : ps.retmode = some RetMode.json := hmode ▸ h
      unfold einfo esearch
      rw [if_neg (fun hne => hne h), if_neg (fun hne => hne h2)]
      dsimp only
      by_cases hs : 200 ≤ resp.status ∧ resp.status < 300
      · have hrs : resp.raise_for_status = Except.ok () := by
          unfold HttpResponse.raise_for_status
          rw [if_pos hs]
        rw [hrs]
        dsimp only
        cases hv1 : EInfoResponse.model_validate resp.body <;>
          cases hv2 : ESearchResponse.model_validate resp.body <;>
          simp_all [branchOf, exceptOk]
      · have hrs : resp.raise_for_status =
            Except.error (SdkError.httpStatusError resp.status resp.body) := by
          unfold HttpResponse.raise_for_status
          rw [if_neg hs]
        rw [hrs]
        rfl
    · have h2 : ¬ ps.retmode = some RetMode.json := hmode ▸ h
      rw [einfo_not_json_eq _ _ h, esearch_not_json_eq _ _ h2]
      rfl

theorem C8_witness :
    branchOf (einfo (fun _ => { status := 500, body := Json.obj [] })
        ({} : EInfoRequest)) =
      branchOf (esearch (fun _ => { status := 500, body := Json.obj [] })
        ({} : ESearchRequest)) :=
  C8_shared_protocol.2.2 _ {} {} rfl rfl

/-- C9: when the return mode is JSON, the status is a success and the body
validates as the response model of the endpoint, einfo and esearch return
exactly that validated model, untransformed. -/
theorem C9_success_returns_validated_model :
    (∀ (resp : HttpResponse) (p : EInfoRequest) (r : EInfoResponse),
      p.retmode = some RetMode.json → 200 ≤ resp.status → resp.status < 300 →
      EInfoResponse.model_validate resp.body = Except.ok r →
      (einfo (fun _ => resp) p).1 = Except.ok r) ∧
    (∀ (resp : HttpResponse) (p : ESearchRequest) (r : ESearchResponse),
      p.retmode = some RetMode.json → 200 ≤ resp.status → resp.status < 300 →
      ESearchResponse.model_validate resp.body = Except.ok r →
      (esearch (fun _ => resp) p).1 = Except.ok r) := by
  constructor
  · intro resp p r h hs1 hs2 hv
    have hrs : resp.raise_for_status = Except.ok () := by
      unfold HttpResponse.raise_for_status
      rw [if_pos ⟨hs1, hs2⟩]
    unfold einfo
    rw [if_neg (fun hne => hne h)]
    dsimp only
    rw [hrs, hv]
  · intro resp p r h hs1 hs2 hv
    have hrs : resp.raise_for_status = Except.ok () := by
      unfold HttpResponse.raise_for_status
      rw [if_pos ⟨hs1, hs2⟩]
    unfold esearch
    rw [if_neg (fun hne => hne h)]
    dsimp only
    rw [hrs, hv]

theorem C9_witness :
    (einfo (fun _ => { status := 200, body := Json.obj [("einforesult", Json.obj [])] }) ({} : EInfoRequest)).1 = Except.ok { einforesult := { dblist := none, dbinfo := none } } :=
  C9_success_returns_validated_model.1 _ {} _ rfl (by decide) (by decide) rfl

end PubmedSdk
